import Mathlib

/-!
Shallow embedding of the Literary Muse exchange controller
(`src/src/App.tsx`, `handleSubmit`) and proofs of the spec claims.
-/

namespace LiteraryMuse

/-- Role of a transcript entry, from the `Message` interface in `App.tsx`. -/
inductive Role where
  | user
  | assistant
deriving DecidableEq

/-- One transcript entry, from the `Message` interface in `App.tsx`. -/
structure Message where
  role : Role
  content : String
deriving DecidableEq

/-- The fixed model identifier `MODEL_ID` in `App.tsx`. -/
def MODEL_ID : String := "Domver345/lightnovel_ai_proto"

/-- Controller state: the `messages`, `input` and `isLoading` React state hooks. -/
structure AppState where
  messages : List Message
  input : String
  isLoading : Bool
deriving DecidableEq

/-- Outcome of the awaited capability call `hf.chatCompletion`:
either it resolves with a payload whose `generated_text` field is a string `g`
(`success (some g)`), resolves with a payload whose `generated_text` field is
missing or not a string (`success none`), rejects or throws an `Error`
instance carrying message `m` (`errorThrown m`), or throws a value that is
not an `Error` instance (`nonErrorThrown`). -/
inductive CapOutcome where
  | success (generated_text : Option String)
  | errorThrown (msg : String)
  | nonErrorThrown
deriving DecidableEq

/-- The request object passed to `hf.chatCompletion` in `App.tsx`. -/
structure Request where
  model : String
  messages : List Message
  max_new_tokens : Nat
  temperature : ℚ
  top_p : ℚ
deriving DecidableEq

/-- JavaScript `String.prototype.trim`: remove whitespace from both ends of
the string (whitespace modelled by `Char.isWhitespace`). -/
def jsTrim (s : String) : String :=
  ⟨((s.data.dropWhile Char.isWhitespace).reverse.dropWhile Char.isWhitespace).reverse⟩

/-- The guard `!input.trim() || isLoading` on line 24 of `App.tsx`
(true when the submission is accepted, i.e. the guard does not fire). -/
def acceptedB (s : AppState) : Bool :=
  !(jsTrim s.input == "") && !s.isLoading

/-- The check `!apiToken || apiToken === 'your_token_here'` on line 32 of
`App.tsx`; `none` models an unset environment variable, and an empty string
is falsy in JavaScript. -/
def tokenInvalid : Option String → Bool
  | none => true
  | some t => t == "" || t == "your_token_here"

/-- Message of the configuration `Error` thrown on line 33 of `App.tsx`. -/
def configTokenMessage : String :=
  "Please set your Hugging Face API token in the .env file"

/-- The request built on lines 37–47 of `App.tsx`: model id, a single-turn
message list holding only the new trimmed prompt, and fixed generation
parameters. -/
def mkRequest (userMessage : String) : Request :=
  { model := MODEL_ID
    messages := [{ role := Role.user, content := userMessage }]
    max_new_tokens := 500
    temperature := 0.7
    top_p := 0.95 }

/-- Content of the assistant entry appended once the capability call settles:
lines 50–53 (success: `generated_text` if it is a string, otherwise the
placeholder) and lines 59–69 (catch: `"Error: "` followed by `error.message`
for an `Error` instance, or the fixed fallback otherwise) of `App.tsx`. -/
def assistantContent : CapOutcome → String
  | CapOutcome.success (some g) => g
  | CapOutcome.success none => "No response generated"
  | CapOutcome.errorThrown m => "Error: " ++ m
  | CapOutcome.nonErrorThrown => "Error: Failed to get response"

/-- The synchronous portion of `handleSubmit` for an accepted submission
(lines 26–29 of `App.tsx`), executed before the capability call resolves:
clear the input, append the user entry with the trimmed prompt, set the
loading flag. -/
def submitPhase1 (s : AppState) : AppState :=
  { messages := s.messages ++ [{ role := Role.user, content := jsTrim s.input }]
    input := ""
    isLoading := true }

/-- Settlement of an accepted submission (lines 31–72 of `App.tsx`), starting
from the state `s1` left by the synchronous portion: if the token is missing
or the placeholder, the thrown configuration `Error` is caught and its
message appended with the `"Error: "` prefix, and no request is passed to the
capability; otherwise the capability is invoked with `mkRequest userMessage`
and the assistant entry determined by the outcome is appended. The `finally`
block clears the loading flag on every path. Returns the final state and the
request passed to the capability, if any. -/
def settle (apiToken : Option String) (userMessage : String)
    (outcome : CapOutcome) (s1 : AppState) : AppState × Option Request :=
  if tokenInvalid apiToken then
    ({ s1 with
        messages := s1.messages ++
          [{ role := Role.assistant, content := "Error: " ++ configTokenMessage }]
        isLoading := false },
     none)
  else
    ({ s1 with
        messages := s1.messages ++
          [{ role := Role.assistant, content := assistantContent outcome }]
        isLoading := false },
     some (mkRequest userMessage))

/-- The whole of `handleSubmit` (lines 22–73 of `App.tsx`): a submission is a
no-op when the trimmed input is empty or a request is already pending;
otherwise the synchronous portion runs and the call then settles with the
given outcome. Returns the final state and the request passed to the
capability, if any. -/
def handleSubmit (apiToken : Option String) (outcome : CapOutcome)
    (s : AppState) : AppState × Option Request :=
  if acceptedB s then
    settle apiToken (jsTrim s.input) outcome (submitPhase1 s)
  else
    (s, none)

example :
    handleSubmit (some "tok") (CapOutcome.success (some "there")) ⟨[], "hi", false⟩
      = (⟨[⟨Role.user, "hi"⟩, ⟨Role.assistant, "there"⟩], "", false⟩,
         some (mkRequest "hi")) := by rfl

/-- A non-empty trimmed input together with a clear loading flag makes the
line-24 guard accept the submission. -/
theorem acceptedB_true {s : AppState} (h1 : jsTrim s.input ≠ "")
    (h2 : s.isLoading = false) : acceptedB s = true := by
  simp [acceptedB, h1, h2]

/-- An accepted submission runs the synchronous portion and then settles. -/
theorem handleSubmit_accepted (apiToken : Option String) (outcome : CapOutcome)
    {s : AppState} (h : acceptedB s = true) :
    handleSubmit apiToken outcome s
      = settle apiToken (jsTrim s.input) outcome (submitPhase1 s) := by
  simp [handleSubmit, h]

/-- With a valid token, settlement appends the assistant entry determined by
the outcome and records the capability request. -/
theorem settle_validToken {apiToken : Option String}
    (ht : tokenInvalid apiToken = false) (userMessage : String)
    (outcome : CapOutcome) (s1 : AppState) :
    settle apiToken userMessage outcome s1
      = ({ s1 with
            messages := s1.messages ++
              [{ role := Role.assistant, content := assistantContent outcome }]
            isLoading := false },
         some (mkRequest userMessage)) := by
  simp [settle, ht]

/-- C1: for every prompt that is non-empty after trimming and is submitted
while idle, the synchronous portion appends exactly one user-role entry with
the trimmed prompt to the transcript, and settlement (whatever the outcome,
success or failure) appends exactly one assistant-role entry after it. -/
theorem C1_one_user_then_one_assistant (apiToken : Option String)
    (outcome : CapOutcome) (s : AppState)
    (h1 : jsTrim s.input ≠ "") (h2 : s.isLoading = false) :
    (submitPhase1 s).messages
        = s.messages ++ [{ role := Role.user, content := jsTrim s.input }] ∧
    ∃ c, (handleSubmit apiToken outcome s).1.messages
        = (submitPhase1 s).messages
            ++ [{ role := Role.assistant, content := c }] := by
  refine ⟨rfl, ?_⟩
  rw [handleSubmit_accepted apiToken outcome (acceptedB_true h1 h2)]
  unfold settle
  split
  · exact ⟨"Error: " ++ configTokenMessage, rfl⟩
  · exact ⟨assistantContent outcome, rfl⟩

/-- Witness for C1 at a concrete idle state with prompt `" Hello "` and a
failing outcome. -/
theorem C1_one_user_then_one_assistant_witness :
    jsTrim " Hello " ≠ "" ∧ (AppState.mk [] " Hello " false).isLoading = false ∧
    ((submitPhase1 ⟨[], " Hello ", false⟩).messages
        = [] ++ [{ role := Role.user, content := jsTrim " Hello " }] ∧
     ∃ c, (handleSubmit (some "tok") CapOutcome.nonErrorThrown
            ⟨[], " Hello ", false⟩).1.messages
        = (submitPhase1 ⟨[], " Hello ", false⟩).messages
            ++ [{ role := Role.assistant, content := c }]) :=
  ⟨by decide, rfl,
   C1_one_user_then_one_assistant (some "tok") CapOutcome.nonErrorThrown
     ⟨[], " Hello ", false⟩ (by decide) rfl⟩

/-- C2: every settlement of an accepted submission — success, configuration
fault, transport fault, or any thrown fault — leaves the loading flag clear,
so a subsequent submission with a non-empty trimmed input is accepted
again. -/
theorem C2_settles_to_idle (apiToken : Option String) (outcome : CapOutcome)
    (s : AppState) (h1 : jsTrim s.input ≠ "") (h2 : s.isLoading = false) :
    (handleSubmit apiToken outcome s).1.isLoading = false ∧
    ∀ t : String, jsTrim t ≠ "" →
      acceptedB { (handleSubmit apiToken outcome s).1 with input := t }
        = true := by
  rw [handleSubmit_accepted apiToken outcome (acceptedB_true h1 h2)]
  unfold settle
  constructor
  · split <;> rfl
  · intro t ht
    split <;> simp [acceptedB, ht]

/-- Witness for C2 at a concrete idle state, an invalid token (configuration
fault path) and a fresh prompt `"again"` afterwards. -/
theorem C2_settles_to_idle_witness :
    jsTrim "Hello" ≠ "" ∧ (AppState.mk [] "Hello" false).isLoading = false ∧
    ((handleSubmit none (CapOutcome.success none)
        ⟨[], "Hello", false⟩).1.isLoading = false ∧
     ∀ t : String, jsTrim t ≠ "" →
       acceptedB { (handleSubmit none (CapOutcome.success none)
           ⟨[], "Hello", false⟩).1 with input := t } = true) :=
  ⟨by decide, rfl,
   C2_settles_to_idle none (CapOutcome.success none) ⟨[], "Hello", false⟩
     (by decide) rfl⟩

/-- C3: a submission whose input trims to the empty string, or made while a
request is pending, is a no-op: the whole state is unchanged and no request
is passed to the capability. -/
theorem C3_rejected_noop (apiToken : Option String) (outcome : CapOutcome)
    (s : AppState) (h : jsTrim s.input = "" ∨ s.isLoading = true) :
    handleSubmit apiToken outcome s = (s, none) := by
  have hacc : acceptedB s = false := by
    rcases h with h | h <;> simp [acceptedB, h]
  simp [handleSubmit, hacc]

/-- Witness for C3 at a whitespace-only prompt in an idle state. -/
theorem C3_rejected_noop_witness :
    (jsTrim "   " = "" ∨ (AppState.mk [] "   " false).isLoading = true) ∧
    handleSubmit (some "tok") (CapOutcome.success (some "hi"))
        ⟨[], "   ", false⟩
      = (⟨[], "   ", false⟩, none) :=
  ⟨Or.inl (by decide),
   C3_rejected_noop (some "tok") (CapOutcome.success (some "hi"))
     ⟨[], "   ", false⟩ (Or.inl (by decide))⟩

/-- C4: for every accepted submission, a missing or placeholder credential
means no request is passed to the capability, and the transcript receives the
user entry followed by an assistant entry reading exactly
`"Error: Please set your Hugging Face API token in the .env file"`, with the
loading flag ending clear. -/
theorem C4_config_fault (apiToken : Option String) (outcome : CapOutcome)
    (s : AppState) (h1 : jsTrim s.input ≠ "") (h2 : s.isLoading = false)
    (ht : tokenInvalid apiToken = true) :
    (handleSubmit apiToken outcome s).2 = none ∧
    (handleSubmit apiToken outcome s).1.messages
      = s.messages
          ++ [{ role := Role.user, content := jsTrim s.input },
              { role := Role.assistant,
                content :=
                  "Error: Please set your Hugging Face API token in the .env file" }] ∧
    (handleSubmit apiToken outcome s).1.isLoading = false := by
  rw [handleSubmit_accepted apiToken outcome (acceptedB_true h1 h2)]
  simp [settle, ht, submitPhase1, configTokenMessage]

/-- Witness for C4: unset credential, prompt `"Hello"`, empty transcript. -/
theorem C4_config_fault_witness :
    jsTrim "Hello" ≠ "" ∧ (AppState.mk [] "Hello" false).isLoading = false ∧
    tokenInvalid none = true ∧
    ((handleSubmit none (CapOutcome.success (some "g"))
        ⟨[], "Hello", false⟩).2 = none ∧
     (handleSubmit none (CapOutcome.success (some "g"))
        ⟨[], "Hello", false⟩).1.messages
       = [] ++ [{ role := Role.user, content := jsTrim "Hello" },
                { role := Role.assistant,
                  content :=
                    "Error: Please set your Hugging Face API token in the .env file" }] ∧
     (handleSubmit none (CapOutcome.success (some "g"))
        ⟨[], "Hello", false⟩).1.isLoading = false) :=
  ⟨by decide, rfl, rfl,
   C4_config_fault none (CapOutcome.success (some "g")) ⟨[], "Hello", false⟩
     (by decide) rfl rfl⟩

/-- C5: for every accepted submission with a valid token in which the
capability call throws an `Error` carrying message `m`, exactly one assistant
entry with content `"Error: " ++ m` is appended after the user entry, and the
loading flag ends clear so future submissions are not blocked. -/
theorem C5_error_with_message (apiToken : Option String) (s : AppState)
    (m : String) (h1 : jsTrim s.input ≠ "") (h2 : s.isLoading = false)
    (ht : tokenInvalid apiToken = false) :
    (handleSubmit apiToken (CapOutcome.errorThrown m) s).1.messages
      = s.messages
          ++ [{ role := Role.user, content := jsTrim s.input },
              { role := Role.assistant, content := "Error: " ++ m }] ∧
    (handleSubmit apiToken (CapOutcome.errorThrown m) s).1.isLoading
      = false := by
  rw [handleSubmit_accepted apiToken (CapOutcome.errorThrown m)
    (acceptedB_true h1 h2)]
  rw [settle_validToken ht]
  simp [submitPhase1, assistantContent]

/-- Witness for C5: valid token, prompt `"Hello"`, capability rejects with
message `"Service unavailable"`. -/
theorem C5_error_with_message_witness :
    jsTrim "Hello" ≠ "" ∧ (AppState.mk [] "Hello" false).isLoading = false ∧
    tokenInvalid (some "tok") = false ∧
    ((handleSubmit (some "tok") (CapOutcome.errorThrown "Service unavailable")
        ⟨[], "Hello", false⟩).1.messages
       = [] ++ [{ role := Role.user, content := jsTrim "Hello" },
                { role := Role.assistant,
                  content := "Error: " ++ "Service unavailable" }] ∧
     (handleSubmit (some "tok") (CapOutcome.errorThrown "Service unavailable")
        ⟨[], "Hello", false⟩).1.isLoading = false) :=
  ⟨by decide, rfl, rfl,
   C5_error_with_message (some "tok") ⟨[], "Hello", false⟩
     "Service unavailable" (by decide) rfl rfl⟩

/-- C6: for every accepted submission with a valid token in which the payload
carries no usable `generated_text` string, the appended assistant entry reads
exactly `"No response generated"`, and this content is never of the form
`"Error: " ++ m` for any message `m`. -/
theorem C6_shape_fault_placeholder (apiToken : Option String) (s : AppState)
    (h1 : jsTrim s.input ≠ "") (h2 : s.isLoading = false)
    (ht : tokenInvalid apiToken = false) :
    (handleSubmit apiToken (CapOutcome.success none) s).1.messages
      = s.messages
          ++ [{ role := Role.user, content := jsTrim s.input },
              { role := Role.assistant, content := "No response generated" }] ∧
    ∀ m : String,
      assistantContent (CapOutcome.success none) ≠ "Error: " ++ m := by
  constructor
  · rw [handleSubmit_accepted apiToken (CapOutcome.success none)
      (acceptedB_true h1 h2)]
    rw [settle_validToken ht]
    simp [submitPhase1, assistantContent]
  · intro m h
    have h' : ("No response generated").data = "Error: ".data ++ m.data := by
      have hd := congrArg String.data h
      rwa [String.data_append] at hd
    exact absurd ⟨m.data, h'.symm⟩
      (by decide : ¬ ("Error: ".data <+: ("No response generated").data))

/-- Witness for C6: valid token, prompt `"Hello"`, payload without a usable
text field. -/
theorem C6_shape_fault_placeholder_witness :
    jsTrim "Hello" ≠ "" ∧ (AppState.mk [] "Hello" false).isLoading = false ∧
    tokenInvalid (some "tok") = false ∧
    ((handleSubmit (some "tok") (CapOutcome.success none)
        ⟨[], "Hello", false⟩).1.messages
       = [] ++ [{ role := Role.user, content := jsTrim "Hello" },
                { role := Role.assistant,
                  content := "No response generated" }] ∧
     ∀ m : String,
       assistantContent (CapOutcome.success none) ≠ "Error: " ++ m) :=
  ⟨by decide, rfl, rfl,
   C6_shape_fault_placeholder (some "tok") ⟨[], "Hello", false⟩
     (by decide) rfl rfl⟩

/-- C7: for every accepted submission with a valid token in which the payload
carries `generated_text` as a string `g`, the appended assistant entry has
content exactly `g`. -/
theorem C7_success_appends_generated_text (apiToken : Option String)
    (s : AppState) (g : String) (h1 : jsTrim s.input ≠ "")
    (h2 : s.isLoading = false) (ht : tokenInvalid apiToken = false) :
    (handleSubmit apiToken (CapOutcome.success (some g)) s).1.messages
      = s.messages
          ++ [{ role := Role.user, content := jsTrim s.input },
              { role := Role.assistant, content := g }] := by
  rw [handleSubmit_accepted apiToken (CapOutcome.success (some g))
    (acceptedB_true h1 h2)]
  rw [settle_validToken ht]
  simp [submitPhase1, assistantContent]

/-- Witness for C7: valid token, prompt `"Tell me a story"`, payload
`generated_text = "Once upon a time..."`. -/
theorem C7_success_appends_generated_text_witness :
    jsTrim "Tell me a story" ≠ "" ∧
    (AppState.mk [] "Tell me a story" false).isLoading = false ∧
    tokenInvalid (some "tok") = false ∧
    (handleSubmit (some "tok")
        (CapOutcome.success (some "Once upon a time..."))
        ⟨[], "Tell me a story", false⟩).1.messages
      = [] ++ [{ role := Role.user, content := jsTrim "Tell me a story" },
               { role := Role.assistant,
                 content := "Once upon a time..." }] :=
  ⟨by decide, rfl, rfl,
   C7_success_appends_generated_text (some "tok")
     ⟨[], "Tell me a story", false⟩ "Once upon a time..." (by decide) rfl rfl⟩

/-- C8: whenever a submission passes a request to the external capability,
that request carries exactly one message — a user-role message holding only
the new trimmed prompt, no prior transcript — and the fixed generation
parameters: 500 max new tokens, temperature 0.7, nucleus sampling threshold
0.95. -/
theorem C8_request_single_turn_fixed_params (apiToken : Option String)
    (outcome : CapOutcome) (s : AppState) (r : Request)
    (hr : (handleSubmit apiToken outcome s).2 = some r) :
    r.messages = [{ role := Role.user, content := jsTrim s.input }] ∧
    r.max_new_tokens = 500 ∧ r.temperature = 0.7 ∧ r.top_p = 0.95 := by
  have hreq : r = mkRequest (jsTrim s.input) := by
    by_cases hacc : acceptedB s = true
    · rw [handleSubmit_accepted apiToken outcome hacc] at hr
      unfold settle at hr
      split at hr
      · exact absurd hr (by simp)
      · exact (Option.some.injEq _ _ ▸ hr).symm
    · rw [handleSubmit, if_neg hacc] at hr
      exact absurd hr (by simp)
  subst hreq
  exact ⟨rfl, rfl, rfl, rfl⟩

/-- Witness for C8: valid token, prompt `" Hello "`, successful outcome; the
request recorded is `mkRequest (jsTrim " Hello ")`. -/
theorem C8_request_single_turn_fixed_params_witness :
    (handleSubmit (some "tok") (CapOutcome.success (some "g"))
        ⟨[], " Hello ", false⟩).2 = some (mkRequest (jsTrim " Hello ")) ∧
    ((mkRequest (jsTrim " Hello ")).messages
        = [{ role := Role.user, content := jsTrim " Hello " }] ∧
     (mkRequest (jsTrim " Hello ")).max_new_tokens = 500 ∧
     (mkRequest (jsTrim " Hello ")).temperature = 0.7 ∧
     (mkRequest (jsTrim " Hello ")).top_p = 0.95) :=
  ⟨rfl,
   C8_request_single_turn_fixed_params (some "tok")
     (CapOutcome.success (some "g")) ⟨[], " Hello ", false⟩
     (mkRequest (jsTrim " Hello ")) rfl⟩

/-- C9: the transcript is append-only: for every execution of `handleSubmit`
— accepted or rejected, success or failure — the new transcript is the old
transcript followed by some (possibly empty) list of new entries, so every
pre-existing entry survives unmodified and in the same relative order. -/
theorem C9_transcript_append_only (apiToken : Option String)
    (outcome : CapOutcome) (s : AppState) :
    ∃ tail : List Message,
      (handleSubmit apiToken outcome s).1.messages = s.messages ++ tail := by
  unfold handleSubmit
  split
  · unfold settle
    split
    · exact ⟨[{ role := Role.user, content := jsTrim s.input },
              { role := Role.assistant,
                content := "Error: " ++ configTokenMessage }],
        by simp [submitPhase1]⟩
    · exact ⟨[{ role := Role.user, content := jsTrim s.input },
              { role := Role.assistant, content := assistantContent outcome }],
        by simp [submitPhase1]⟩
  · exact ⟨[], by simp⟩

/-- C10: for every accepted submission with a valid token in which the
capability call throws a value that is not an `Error` instance, the appended
assistant entry has content exactly `"Error: Failed to get response"`. -/
theorem C10_non_error_fallback (apiToken : Option String) (s : AppState)
    (h1 : jsTrim s.input ≠ "") (h2 : s.isLoading = false)
    (ht : tokenInvalid apiToken = false) :
    (handleSubmit apiToken CapOutcome.nonErrorThrown s).1.messages
      = s.messages
          ++ [{ role := Role.user, content := jsTrim s.input },
              { role := Role.assistant,
                content := "Error: Failed to get response" }] := by
  rw [handleSubmit_accepted apiToken CapOutcome.nonErrorThrown
    (acceptedB_true h1 h2)]
  rw [settle_validToken ht]
  simp [submitPhase1, assistantContent]

/-- Witness for C10: valid token, prompt `"Hello"`, capability throws a
non-`Error` value. -/
theorem C10_non_error_fallback_witness :
    jsTrim "Hello" ≠ "" ∧ (AppState.mk [] "Hello" false).isLoading = false ∧
    tokenInvalid (some "tok") = false ∧
    (handleSubmit (some "tok") CapOutcome.nonErrorThrown
        ⟨[], "Hello", false⟩).1.messages
      = [] ++ [{ role := Role.user, content := jsTrim "Hello" },
               { role := Role.assistant,
                 content := "Error: Failed to get response" }] :=
  ⟨by decide, rfl, rfl,
   C10_non_error_fallback (some "tok") ⟨[], "Hello", false⟩ (by decide) rfl rfl⟩

end LiteraryMuse
